/-
Verification of AudioPages.py (CoolisCodes/AudioPages) against its
natural-language specification.

The Python program is shallowly embedded: every effectful primitive the
program calls (the ElevenLabs client, the `requests` HTTP library, the
filesystem, `time.time()`, `input()`, PyPDF2 page extraction) is modelled
as an explicit environment value passed to the embedded function, and each
embedded function additionally returns a trace of the external calls it
made where a claim is about those calls.  Python exceptions are modelled
by the `PyResult` sum type: `.exn msg` is a raised exception carrying
`str(e)`; a `try/except` block is the `pyTry` combinator.  Python strings
are Lean `String`s; Python byte strings are `List Nat`; Python floats
occurring in the program are carried opaquely as `Rat` (no arithmetic is
performed on them by the code under verification, only storage and
pass-through, so the embedding is faithful).
-/
import Mathlib

namespace AudioPages

/-- Result of running a piece of Python code: a normal value or a raised
exception carrying its message (`str(e)`). -/
inductive PyResult (α : Type) where
  | ok (a : α) : PyResult α
  | exn (msg : String) : PyResult α
deriving DecidableEq, Repr

/-- `try body except Exception as e: handler(e)` where the handler returns
normally. -/
def pyTry {α : Type} (body : PyResult α) (handler : String → α) : PyResult α :=
  match body with
  | .ok a => .ok a
  | .exn e => .ok (handler e)

/-- Whether a Python computation returned normally. -/
def PyResult.isOk {α : Type} : PyResult α → Bool
  | .ok _ => true
  | .exn _ => false

/-! ### Python string primitives used by the program -/

/-- The whitespace characters stripped by Python's `str.strip()`
(ASCII fragment: space, tab, newline, carriage return, vertical tab,
form feed). -/
def pyIsSpace (c : Char) : Bool :=
  c = ' ' || c = '\t' || c = '\n' || c = '\r' || c = '\x0b' || c = '\x0c'

/-- Strip `pyIsSpace` characters from both ends of a character list. -/
def stripChars (l : List Char) : List Char :=
  ((l.dropWhile pyIsSpace).reverse.dropWhile pyIsSpace).reverse

/-- Python `str.strip()`. -/
def pyStrip (s : String) : String :=
  String.mk (stripChars s.data)

/-- Python `str.isdigit()` (ASCII fragment: nonempty and all decimal
digits). -/
def pyIsDigit (s : String) : Bool :=
  !s.data.isEmpty && s.data.all (fun c => '0' ≤ c && c ≤ '9')

/-- Decimal value of a character list (the evaluation `int()` performs on a
string of decimal digits). -/
def decimalVal (l : List Char) : Nat :=
  l.foldl (fun a c => 10 * a + (c.toNat - 48)) 0

/-- Python `int(s)` on a string `s` for which `s.isdigit()` holds. -/
def pyInt (s : String) : Nat :=
  decimalVal s.data

/-- Python `str.lower()` (ASCII fragment). -/
def pyLower (s : String) : String :=
  String.mk (s.data.map Char.toLower)

/-! ### Data model -/

/-- The four voice-settings values threaded through `generate_speech`.
The program only stores and forwards them, so they are carried as exact
rationals. -/
structure VoiceSettings where
  stability : Rat
  similarity_boost : Rat
  style : Rat
  use_speaker_boost : Bool
deriving DecidableEq, Repr

/-- The mutable session state of `TextToSpeechApp` relevant to the claims:
the API key and the currently selected voice id
(default `"21m00Tcm4TlvDq8ikWAM"`). -/
structure Session where
  api_key : String
  voice_id : String
deriving DecidableEq, Repr

/-- A voice as returned by the remote listing. -/
structure Voice where
  voice_id : String
  name : String
deriving DecidableEq, Repr

/-- Audio data: a byte string. -/
abbrev AudioBytes := List Nat

/-! ### generate_speech (AudioPages.py lines 171-233) -/

/-- The request the primary transport
`self.client.text_to_speech.convert(...)` is invoked with. -/
structure PrimaryRequest where
  voice_id : String
  text : String
  voice_settings : VoiceSettings
deriving DecidableEq, Repr

/-- The JSON body of the fallback `requests.post` call. -/
structure FallbackBody where
  text : String
  model_id : String
  voice_settings : VoiceSettings
deriving DecidableEq, Repr

/-- The fallback HTTP request: method, URL, headers (ordered key-value
pairs as built in the source) and JSON body. -/
structure FallbackRequest where
  method : String
  url : String
  headers : List (String × String)
  body : FallbackBody
deriving DecidableEq, Repr

/-- A `requests` HTTP response: status code, raw body bytes
(`response.content`) and decoded text (`response.text`). -/
structure HttpResponse where
  status_code : Nat
  content : AudioBytes
  text : String
deriving DecidableEq, Repr

/-- Behaviour of the external world during one `generate_speech` call:
what the primary client call does on a given request (returns the byte
chunks of the streaming generator, or raises — a raise anywhere up to and
including the `b''.join` consumption of the generator is one `.exn`), and
what `requests.post` does on a given request. -/
structure GenEnv where
  primary : PrimaryRequest → PyResult (List AudioBytes)
  post : FallbackRequest → PyResult HttpResponse

/-- Trace of the network calls `generate_speech` performed, in order. -/
structure GenTrace where
  primaryCalls : List PrimaryRequest
  fallbackCalls : List FallbackRequest
deriving DecidableEq, Repr

/-- The primary request built at lines 177-186 of the source. -/
def mkPrimaryRequest (s : Session) (text : String) (vs : VoiceSettings) :
    PrimaryRequest :=
  { voice_id := s.voice_id, text := text, voice_settings := vs }

/-- The fallback request built at lines 203-219 of the source. -/
def mkFallbackRequest (s : Session) (text : String) (vs : VoiceSettings) :
    FallbackRequest :=
  { method := "POST"
    url := "https://api.elevenlabs.io/v1/text-to-speech/" ++ s.voice_id
    headers :=
      [("Accept", "audio/mpeg"),
       ("Content-Type", "application/json"),
       ("xi-api-key", s.api_key)]
    body :=
      { text := text
        model_id := "eleven_monolingual_v1"
        voice_settings := vs } }

/-- `TextToSpeechApp.generate_speech` (lines 171-233): call the primary
client transport; on success join the chunks and return them; on any
exception build the direct HTTP POST and issue it once; a 200 response
yields `response.content`, any other status or a raised exception yields
`None`.  Returns the result together with the trace of network calls. -/
def generate_speech (env : GenEnv) (s : Session) (text : String)
    (vs : VoiceSettings) : Option AudioBytes × GenTrace :=
  let preq := mkPrimaryRequest s text vs
  match env.primary preq with
  | .ok chunks =>
      (some chunks.flatten, { primaryCalls := [preq], fallbackCalls := [] })
  | .exn _ =>
      let freq := mkFallbackRequest s text vs
      match env.post freq with
      | .ok resp =>
          if resp.status_code = 200 then
            (some resp.content,
             { primaryCalls := [preq], fallbackCalls := [freq] })
          else
            (none, { primaryCalls := [preq], fallbackCalls := [freq] })
      | .exn _ =>
          (none, { primaryCalls := [preq], fallbackCalls := [freq] })

/-- The menu-option-1 step of `TextToSpeechApp.run` (lines 372-389): the
typed text is stripped; if it is empty the loop prints "No text provided!"
and continues without calling `generate_speech`; otherwise
`generate_speech` is invoked on the stripped text. -/
def run_convert_step (env : GenEnv) (s : Session) (rawText : String)
    (vs : VoiceSettings) : Option AudioBytes × GenTrace :=
  let text := pyStrip rawText
  if text = "" then
    (none, { primaryCalls := [], fallbackCalls := [] })
  else
    generate_speech env s text vs

/-! ### select_voice (AudioPages.py lines 149-169) -/

/-- `TextToSpeechApp.select_voice`, given the fetched voice list and the
user's raw input, returns the new `voice_id` of the session (`cur` is the
current value).  An empty listing keeps the current voice; a stripped
input that is nonempty and all digits is parsed as `int(choice) - 1` and
used as an index if `0 <= choice_idx < len(voices)`; every other input —
and any raised exception, caught at lines 167-169 — keeps the current
voice.  (`Option.getD cur` covers the IndexError arm of that handler,
which is unreachable under the bounds check.) -/
def select_voice (voices : List Voice) (input : String) (cur : String) :
    String :=
  if voices.isEmpty then cur
  else
    let choice := pyStrip input
    if choice ≠ "" ∧ pyIsDigit choice then
      let choice_idx : Int := (pyInt choice : Int) - 1
      if 0 ≤ choice_idx ∧ choice_idx < (voices.length : Int) then
        ((voices.get? choice_idx.toNat).map Voice.voice_id).getD cur
      else cur
    else cur

/-! ### save_audio (AudioPages.py lines 306-322) -/

/-- The auto-generated filename of line 312:
`f"generated_speech_{timestamp}.mp3"` with `timestamp = int(time.time())`. -/
def autoFilename (timestamp : Nat) : String :=
  "generated_speech_" ++ Nat.repr timestamp ++ ".mp3"

/-- `TextToSpeechApp.save_audio`: resolve the filename (the auto-generated
name when none was supplied — Python's `if not filename` treats `None` and
`""` alike, and both call sites pass `None` for the empty case), write the
bytes, and return the filename, or `none` if opening/writing raised
(`writeOk` models whether `open(filename,'wb').write` succeeds). -/
def save_audio (writeOk : String → Bool) (timestamp : Nat)
    (filename : Option String) : Option String :=
  let fname :=
    match filename with
    | none => autoFilename timestamp
    | some f => f
  if writeOk fname then some fname else none

/-! ### adjust_voice_settings (AudioPages.py lines 324-345) -/

/-- The external inputs of one `adjust_voice_settings` call: the four raw
`input()` strings, and the behaviour of Python's `float()` builtin
(`none` models a raised `ValueError`). -/
structure AdjustEnv where
  stabilityInput : String
  similarityInput : String
  styleInput : String
  boostInput : String
  parseFloat : String → Option Rat

/-- `TextToSpeechApp.adjust_voice_settings`: prompt for the three numeric
settings (empty input keeps the default, otherwise `float()` is applied)
and the speaker-boost flag (`!= 'n'` after strip+lower); a `ValueError`
raised at any prompt is caught by the single handler at lines 343-345,
which returns the default quadruple `(0.5, 0.8, 0.0, True)`. -/
def adjust_voice_settings (env : AdjustEnv) : Rat × Rat × Rat × Bool :=
  let defaults : Rat × Rat × Rat × Bool := (1/2, 4/5, 0, true)
  let sIn := pyStrip env.stabilityInput
  match (if sIn = "" then some ((1 : Rat)/2) else env.parseFloat sIn) with
  | none => defaults
  | some stability =>
    let simIn := pyStrip env.similarityInput
    match (if simIn = "" then some ((4 : Rat)/5) else env.parseFloat simIn) with
    | none => defaults
    | some similarity =>
      let styIn := pyStrip env.styleInput
      match (if styIn = "" then some (0 : Rat) else env.parseFloat styIn) with
      | none => defaults
      | some style =>
        let speaker_boost := pyLower (pyStrip env.boostInput) ≠ "n"
        (stability, similarity, style, speaker_boost)

/-! ### extract_text_from_pdf (AudioPages.py lines 895-925) -/

/-- The external world of one PDF extraction: whether PyPDF2 imported, and
the result of `open(pdf_path,'rb')` + `PyPDF2.PdfReader(file)` — either a
raise, or the list of pages, each page recording what its
`page.extract_text()` call does. -/
structure PdfEnv where
  pdfAvailable : Bool
  openFile : PyResult (List (PyResult String))

/-- The text a single page contributes to the accumulator (lines 908-916):
nothing if `extract_text()` raised (the `except` arm `continue`s), nothing
if the extracted text strips to empty, and otherwise the page marker
followed by the raw page text and a newline. -/
def pageContribution (page_num : Nat) (page : PyResult String) : String :=
  match page with
  | .exn _ => ""
  | .ok page_text =>
      if pyStrip page_text = "" then ""
      else
        "\n--- Page " ++ Nat.repr page_num ++ " ---\n" ++ page_text ++ "\n"

/-- The `for page_num, page in enumerate(pdf_reader.pages, 1)` loop:
concatenate each page's contribution, numbering from `n`. -/
def collectPages (n : Nat) : List (PyResult String) → String
  | [] => ""
  | page :: rest => pageContribution n page ++ collectPages (n + 1) rest

/-- `TextToSpeechGUI.extract_text_from_pdf`: raises (unwrapped) if PyPDF2
is unavailable; otherwise runs the page loop inside a `try` whose handler
re-raises every failure as `Exception(f"Error reading PDF: {e}")` —
including the `"No text could be extracted from the PDF"` raise when the
accumulated text strips to empty.  On success returns `text.strip()`. -/
def extract_text_from_pdf (env : PdfEnv) : PyResult String :=
  if !env.pdfAvailable then
    .exn "PyPDF2 not available. Cannot read PDF files."
  else
    match env.openFile with
    | .exn e => .exn ("Error reading PDF: " ++ e)
    | .ok pages =>
        let text := collectPages 1 pages
        if pyStrip text = "" then
          .exn ("Error reading PDF: " ++ "No text could be extracted from the PDF")
        else
          .ok (pyStrip text)

/-! ### The GUI import operations (AudioPages.py lines 765-818) -/

/-- Outcome of an import operation as it reaches the user: the text placed
in the text area, or the error message shown in the failure dialog. -/
inductive ImportOutcome where
  | imported (text : String) : ImportOutcome
  | failed (message : String) : ImportOutcome
deriving DecidableEq, Repr

/-- `TextToSpeechGUI.import_text_file` (lines 801-818): the whole body —
`open(filename).read()` and the widget updates — runs inside one
`try/except Exception` whose handler shows
`f"Failed to import text file:\n{e}"`.  `readFile` is the result of the
read (a raise covers both open failure and decode failure). -/
def import_text_file (readFile : PyResult String) : PyResult ImportOutcome :=
  pyTry
    (match readFile with
     | .ok text => .ok (.imported text)
     | .exn e => .exn e)
    (fun e => .failed ("Failed to import text file:\n" ++ e))

/-- The worker body of `TextToSpeechGUI.import_pdf` (lines 777-797): call
`extract_text_from_pdf` inside a `try/except Exception` whose handler
shows `f"Failed to import PDF:\n{e}"`. -/
def import_pdf (env : PdfEnv) : PyResult ImportOutcome :=
  pyTry
    (match extract_text_from_pdf env with
     | .ok text => .ok (.imported text)
     | .exn e => .exn e)
    (fun e => .failed ("Failed to import PDF:\n" ++ e))

/-! ### Helper lemmas about `pyStrip` -/

theorem head?_dropWhile {α : Type} (p : α → Bool) (l : List α) (c : α)
    (h : (l.dropWhile p).head? = some c) : p c = false := by
  induction l with
  | nil => simp [List.dropWhile] at h
  | cons a t ih =>
      rw [List.dropWhile_cons] at h
      by_cases hp : p a
      · rw [if_pos hp] at h
        exact ih h
      · rw [if_neg hp] at h
        simp only [List.head?_cons, Option.some.injEq] at h
        subst h
        simpa using hp

theorem getLast?_dropWhile {α : Type} (p : α → Bool) (l : List α)
    (h : l.dropWhile p ≠ []) : (l.dropWhile p).getLast? = l.getLast? := by
  induction l with
  | nil => simp [List.dropWhile] at h
  | cons a t ih =>
      rw [List.dropWhile_cons] at h ⊢
      by_cases hp : p a
      · rw [if_pos hp] at h ⊢
        have ht : t ≠ [] := by
          intro he
          rw [he] at h
          simp [List.dropWhile] at h
        rw [ih h]
        cases t with
        | nil => exact absurd rfl ht
        | cons b t2 => rw [List.getLast?_cons_cons]
      · rw [if_neg hp]

theorem dropWhile_eq_self {α : Type} (p : α → Bool) (l : List α)
    (h : ∀ c, l.head? = some c → p c = false) : l.dropWhile p = l := by
  cases l with
  | nil => rfl
  | cons a t =>
      rw [List.dropWhile_cons, if_neg]
      simp [h a rfl]

theorem stripChars_head? (l : List Char) (c : Char)
    (h : (stripChars l).head? = some c) : pyIsSpace c = false := by
  unfold stripChars at h
  rw [List.head?_reverse] at h
  have hne : (l.dropWhile pyIsSpace).reverse.dropWhile pyIsSpace ≠ [] := by
    intro he
    rw [he] at h
    simp at h
  rw [getLast?_dropWhile _ _ hne, List.getLast?_reverse] at h
  exact head?_dropWhile _ _ _ h

theorem stripChars_getLast? (l : List Char) (c : Char)
    (h : (stripChars l).getLast? = some c) : pyIsSpace c = false := by
  unfold stripChars at h
  rw [List.getLast?_reverse] at h
  exact head?_dropWhile _ _ _ h

theorem stripChars_eq_self (l : List Char)
    (h1 : ∀ c, l.head? = some c → pyIsSpace c = false)
    (h2 : ∀ c, l.getLast? = some c → pyIsSpace c = false) :
    stripChars l = l := by
  unfold stripChars
  rw [dropWhile_eq_self _ _ h1]
  rw [dropWhile_eq_self _ _ (fun c hc => h2 c (by rwa [List.head?_reverse] at hc))]
  exact List.reverse_reverse l

theorem stripChars_idem (l : List Char) :
    stripChars (stripChars l) = stripChars l :=
  stripChars_eq_self _ (stripChars_head? l) (stripChars_getLast? l)

theorem pyStrip_idem (s : String) : pyStrip (pyStrip s) = pyStrip s :=
  congrArg String.mk (stripChars_idem s.data)

/-! ### Helper lemmas: decimal rendering (`Nat.repr`) is injective -/

theorem decimalFoldl_init (l : List Char) (a : Nat) :
    l.foldl (fun x c => 10 * x + (c.toNat - 48)) a
      = a * 10 ^ l.length + l.foldl (fun x c => 10 * x + (c.toNat - 48)) 0 := by
  induction l generalizing a with
  | nil => simp
  | cons c t ih =>
      rw [List.foldl_cons, List.foldl_cons, ih (10 * a + (c.toNat - 48)),
        ih (10 * 0 + (c.toNat - 48))]
      simp only [List.length_cons, pow_succ]
      ring

theorem digitChar_sub_48 (d : Nat) (h : d < 10) :
    (Nat.digitChar d).toNat - 48 = d := by
  interval_cases d <;> rfl

theorem decimalVal_cons (c : Char) (l : List Char) :
    decimalVal (c :: l) = (c.toNat - 48) * 10 ^ l.length + decimalVal l := by
  unfold decimalVal
  rw [List.foldl_cons, decimalFoldl_init]
  ring_nf

theorem decimalVal_toDigitsCore (fuel : Nat) :
    ∀ (n : Nat) (acc : List Char), n < fuel →
      decimalVal (Nat.toDigitsCore 10 fuel n acc)
        = n * 10 ^ acc.length + decimalVal acc := by
  induction fuel with
  | zero => intro n acc h; omega
  | succ f ih =>
      intro n acc h
      show decimalVal
          (if n / 10 = 0 then Nat.digitChar (n % 10) :: acc
           else Nat.toDigitsCore 10 f (n / 10) (Nat.digitChar (n % 10) :: acc))
        = n * 10 ^ acc.length + decimalVal acc
      by_cases h0 : n / 10 = 0
      · rw [if_pos h0, decimalVal_cons, digitChar_sub_48 _ (Nat.mod_lt _ (by omega))]
        have hn : n % 10 = n := Nat.mod_eq_of_lt (by omega)
        rw [hn]
      · rw [if_neg h0]
        have hdiv : n / 10 < f := by
          have h1 : n / 10 < n := Nat.div_lt_self (by omega) (by omega)
          omega
        rw [ih (n / 10) _ hdiv, decimalVal_cons,
          digitChar_sub_48 _ (Nat.mod_lt _ (by omega))]
        have hmod : 10 * (n / 10) + n % 10 = n := Nat.div_add_mod n 10
        simp only [List.length_cons, pow_succ]
        calc n / 10 * (10 ^ acc.length * 10)
                + ((n % 10) * 10 ^ acc.length + decimalVal acc)
            = (10 * (n / 10) + n % 10) * 10 ^ acc.length + decimalVal acc := by ring
          _ = n * 10 ^ acc.length + decimalVal acc := by rw [hmod]

theorem decimalVal_repr (n : Nat) : decimalVal (Nat.repr n).data = n := by
  have h : (Nat.repr n).data = Nat.toDigitsCore 10 (n + 1) n [] := rfl
  rw [h]
  have h2 := decimalVal_toDigitsCore (n + 1) n [] (Nat.lt_succ_self n)
  calc decimalVal (Nat.toDigitsCore 10 (n + 1) n [])
      = n * 10 ^ ([] : List Char).length + decimalVal [] := h2
    _ = n := by simp [decimalVal]

theorem repr_inject {a b : Nat} (h : Nat.repr a = Nat.repr b) : a = b := by
  have h2 := congrArg (fun s => decimalVal s.data) h
  simpa [decimalVal_repr] using h2

theorem autoFilename_inject {a b : Nat}
    (h : autoFilename a = autoFilename b) : a = b := by
  unfold autoFilename at h
  have hd := congrArg String.data h
  simp only [String.data_append, List.append_assoc] at hd
  have h1 := List.append_cancel_left hd
  have h2 := List.append_cancel_right h1
  exact repr_inject (String.ext h2)

theorem pyIsDigit_ne_empty {s : String} (h : pyIsDigit s = true) : s ≠ "" := by
  intro he
  subst he
  exact absurd h (by decide)

theorem collectPages_append (n : Nat) (xs ys : List (PyResult String)) :
    collectPages n (xs ++ ys)
      = collectPages n xs ++ collectPages (n + xs.length) ys := by
  induction xs generalizing n with
  | nil =>
      show collectPages n ys = "" ++ collectPages (n + 0) ys
      rw [Nat.add_zero]
      rfl
  | cons x t ih =>
      show pageContribution n x ++ collectPages (n + 1) (t ++ ys) = _
      rw [ih (n + 1)]
      show _ = pageContribution n x ++ collectPages (n + 1) t
          ++ collectPages (n + (t.length + 1)) ys
      rw [String.append_assoc]
      have harith : n + 1 + t.length = n + (t.length + 1) := by omega
      rw [harith]

/-! ### Concrete environments used by the closed-form checks -/

/-- Default voice settings quadruple `(0.5, 0.8, 0.0, True)`. -/
def vsDefault : VoiceSettings :=
  { stability := 1/2, similarity_boost := 4/5, style := 0,
    use_speaker_boost := true }

/-- The primary transport raises and the fallback returns HTTP 404. -/
def envFail404 : GenEnv :=
  { primary := fun _ => .exn "boom"
    post := fun _ => .ok { status_code := 404, content := [], text := "err" } }

/-- The primary transport raises and the fallback returns HTTP 200. -/
def envFail200 : GenEnv :=
  { primary := fun _ => .exn "boom"
    post := fun _ => .ok { status_code := 200, content := [9, 9], text := "" } }

/-- The primary transport succeeds with two byte chunks. -/
def envPrimaryOk : GenEnv :=
  { primary := fun _ => .ok [[1], [2, 3]]
    post := fun _ => .exn "unused" }

/-! ### Claim theorems -/

/-- C1: if the primary transport call inside `generate_speech` raises, the
fallback HTTP POST is attempted exactly once before the operation declares
failure; and if both primary and fallback fail (the fallback raising, or
returning a non-200 status), `generate_speech` returns no audio (`none`),
never a partial buffer. -/
theorem generate_speech_single_fallback
    (env : GenEnv) (s : Session) (text : String) (vs : VoiceSettings)
    (e : String) (hp : env.primary (mkPrimaryRequest s text vs) = .exn e) :
    (generate_speech env s text vs).2.fallbackCalls
        = [mkFallbackRequest s text vs]
    ∧ (((∃ m, env.post (mkFallbackRequest s text vs) = .exn m)
        ∨ (∃ r, env.post (mkFallbackRequest s text vs) = .ok r
            ∧ r.status_code ≠ 200))
       → (generate_speech env s text vs).1 = none) := by
  constructor
  · simp only [generate_speech, hp]
    cases hf : env.post (mkFallbackRequest s text vs) with
    | ok r =>
        by_cases h200 : r.status_code = 200
        · simp [h200]
        · simp [h200]
    | exn m => simp
  · rintro (⟨m, hm⟩ | ⟨r, hr, hne⟩)
    · simp [generate_speech, hp, hm]
    · simp [generate_speech, hp, hr, hne]

/-- Closed-form check for `generate_speech_single_fallback`. -/
theorem generate_speech_single_fallback_check :
    (generate_speech envFail404 ⟨"KEY", "VID"⟩ "hello" vsDefault).2.fallbackCalls
        = [mkFallbackRequest ⟨"KEY", "VID"⟩ "hello" vsDefault]
    ∧ (generate_speech envFail404 ⟨"KEY", "VID"⟩ "hello" vsDefault).1 = none :=
  ⟨(generate_speech_single_fallback envFail404 ⟨"KEY", "VID"⟩ "hello" vsDefault
      "boom" rfl).1,
   (generate_speech_single_fallback envFail404 ⟨"KEY", "VID"⟩ "hello" vsDefault
      "boom" rfl).2
     (Or.inr ⟨{ status_code := 404, content := [], text := "err" }, rfl,
       by decide⟩)⟩

/-- C2 counterexample: called directly with the empty text,
`generate_speech` neither fails immediately nor avoids the network — it
makes the primary client call (which here even returns audio).  The
empty-text guard lives in `TextToSpeechApp.run`, not in
`generate_speech`. -/
theorem generate_speech_empty_text_attempts_network :
    (generate_speech envPrimaryOk ⟨"KEY", "VID"⟩ "" vsDefault).2.primaryCalls ≠ []
    ∧ (generate_speech envPrimaryOk ⟨"KEY", "VID"⟩ "" vsDefault).1
        = some [1, 2, 3] := by
  refine ⟨?_, rfl⟩
  have h : (generate_speech envPrimaryOk ⟨"KEY", "VID"⟩ "" vsDefault).2.primaryCalls
      = [mkPrimaryRequest ⟨"KEY", "VID"⟩ "" vsDefault] := rfl
  rw [h]
  exact List.cons_ne_nil _ _

/-- C2 (amended): the CLI run loop strips the typed text and, when the
result is empty, prints "No text provided!" and continues without ever
invoking `generate_speech`, so no network call — neither the primary
client call nor the fallback HTTP POST — is attempted and no audio
results.  `generate_speech` itself performs no emptiness check. -/
theorem run_loop_empty_text_no_network
    (env : GenEnv) (s : Session) (rawText : String) (vs : VoiceSettings)
    (h : pyStrip rawText = "") :
    run_convert_step env s rawText vs
      = (none, { primaryCalls := [], fallbackCalls := [] }) := by
  simp [run_convert_step, h]

/-- Closed-form check for `run_loop_empty_text_no_network`. -/
theorem run_loop_empty_text_no_network_check :
    run_convert_step envPrimaryOk ⟨"KEY", "VID"⟩ " \n " vsDefault
      = (none, { primaryCalls := [], fallbackCalls := [] }) :=
  run_loop_empty_text_no_network envPrimaryOk ⟨"KEY", "VID"⟩ " \n " vsDefault
    (by decide)

/-- C3: the text-import and PDF-import operations never raise past their
own boundary: each runs its whole body under a catch-all handler, so every
internal failure — decode failure, unreadable file or page, empty
extraction result, missing optional dependency — is converted into the
typed `ImportOutcome.failed` value instead of escaping as an uncaught
fault.  (`extract_text_from_pdf` itself signals failures by raising;
the importing operation wrapping it catches them all.) -/
theorem import_operations_never_raise
    (readFile : PyResult String) (env : PdfEnv) (e : String) :
    (import_text_file readFile).isOk = true
    ∧ (import_pdf env).isOk = true
    ∧ import_text_file (.exn e)
        = .ok (.failed ("Failed to import text file:\n" ++ e))
    ∧ import_pdf { pdfAvailable := false, openFile := env.openFile }
        = .ok (.failed ("Failed to import PDF:\n"
            ++ "PyPDF2 not available. Cannot read PDF files.")) := by
  refine ⟨?_, ?_, rfl, rfl⟩
  · cases readFile <;> rfl
  · unfold import_pdf
    cases h : extract_text_from_pdf env with
    | ok t => rfl
    | exn m => rfl

/-- C4: for all `stability`, `similarity_boost`, `style` in `[0,1]` and any
`use_speaker_boost`, every request `generate_speech` issues carries exactly
those four values unchanged — in the primary transport's `voice_settings`
record and in the fallback HTTP POST's JSON `voice_settings` record. -/
theorem generate_speech_payload_echo
    (env : GenEnv) (s : Session) (text : String) (vs : VoiceSettings)
    (_h1 : 0 ≤ vs.stability ∧ vs.stability ≤ 1)
    (_h2 : 0 ≤ vs.similarity_boost ∧ vs.similarity_boost ≤ 1)
    (_h3 : 0 ≤ vs.style ∧ vs.style ≤ 1) :
    (∀ req ∈ (generate_speech env s text vs).2.primaryCalls,
        req.voice_settings = vs)
    ∧ ∀ req ∈ (generate_speech env s text vs).2.fallbackCalls,
        req.body.voice_settings = vs := by
  simp only [generate_speech]
  cases env.primary (mkPrimaryRequest s text vs) with
  | ok chunks =>
      refine ⟨?_, ?_⟩ <;> intro req hreq <;>
        simp only [List.mem_singleton, List.not_mem_nil] at hreq
      subst hreq
      rfl
  | exn e =>
      cases env.post (mkFallbackRequest s text vs) with
      | ok r =>
          by_cases h200 : r.status_code = 200 <;>
            simp only [h200, if_true, if_false, ite_true, ite_false, if_pos,
              if_neg, not_false_iff] <;>
          · refine ⟨?_, ?_⟩ <;> intro req hreq <;>
              simp only [List.mem_singleton] at hreq <;> subst hreq <;> rfl
      | exn m =>
          refine ⟨?_, ?_⟩ <;> intro req hreq <;>
            simp only [List.mem_singleton] at hreq <;> subst hreq <;> rfl

/-- Closed-form check for `generate_speech_payload_echo`. -/
theorem generate_speech_payload_echo_check :
    (∀ req ∈ (generate_speech envFail404 ⟨"KEY", "VID"⟩ "hello"
          vsDefault).2.primaryCalls,
        req.voice_settings = vsDefault)
    ∧ ∀ req ∈ (generate_speech envFail404 ⟨"KEY", "VID"⟩ "hello"
          vsDefault).2.fallbackCalls,
        req.body.voice_settings = vsDefault :=
  generate_speech_payload_echo envFail404 ⟨"KEY", "VID"⟩ "hello" vsDefault
    ⟨by norm_num [vsDefault], by norm_num [vsDefault]⟩
    ⟨by norm_num [vsDefault], by norm_num [vsDefault]⟩
    ⟨by norm_num [vsDefault], by norm_num [vsDefault]⟩

/-- C5: a PDF page whose extraction raises is skipped and does not abort
the remaining pages — the accumulated text around a failing page is the
text of the pages before it followed by the text of the pages after it,
the latter still carrying their original page numbers; and when the
cumulative text is empty after all pages, the import fails with the
"No text could be extracted from the PDF" error instead of returning an
empty result. -/
theorem pdf_failing_page_skipped_empty_fails
    (n : Nat) (e : String) (ps1 ps2 : List (PyResult String))
    (env : PdfEnv) (pages : List (PyResult String))
    (hav : env.pdfAvailable = true) (hopen : env.openFile = .ok pages)
    (hempty : pyStrip (collectPages 1 pages) = "") :
    collectPages n (ps1 ++ .exn e :: ps2)
      = collectPages n ps1 ++ collectPages (n + ps1.length + 1) ps2
    ∧ extract_text_from_pdf env
      = .exn ("Error reading PDF: "
          ++ "No text could be extracted from the PDF") := by
  constructor
  · rw [collectPages_append]
    show collectPages n ps1
        ++ (pageContribution (n + ps1.length) (.exn e)
            ++ collectPages (n + ps1.length + 1) ps2) = _
    rfl
  · unfold extract_text_from_pdf
    rw [hav, hopen]
    simp [hempty]

/-- Closed-form check for `pdf_failing_page_skipped_empty_fails`. -/
theorem pdf_failing_page_skipped_empty_fails_check :
    collectPages 1 ([.ok "a"] ++ .exn "bad" :: [.ok "b"])
      = collectPages 1 [.ok "a"] ++ collectPages 3 [.ok "b"]
    ∧ extract_text_from_pdf
        { pdfAvailable := true, openFile := .ok [.exn "x", .ok " "] }
      = .exn ("Error reading PDF: "
          ++ "No text could be extracted from the PDF") :=
  pdf_failing_page_skipped_empty_fails 1 "bad" [.ok "a"] [.ok "b"]
    { pdfAvailable := true, openFile := .ok [.exn "x", .ok " "] }
    [.exn "x", .ok " "] rfl rfl (by decide)

/-- C6: a `save_audio` call with no filename supplied writes under the
auto-generated name `generated_speech_<unixTimestamp>.mp3` and returns
that name; and two such calls at timestamps differing by at least one
second produce distinct filenames. -/
theorem save_audio_auto_name (writeOk : String → Bool) (t1 t2 : Nat)
    (hw : writeOk (autoFilename t1) = true) (hne : t1 ≠ t2) :
    save_audio writeOk t1 none = some (autoFilename t1)
    ∧ autoFilename t1 ≠ autoFilename t2 := by
  constructor
  · simp [save_audio, hw]
  · intro h
    exact hne (autoFilename_inject h)

/-- Closed-form check for `save_audio_auto_name`. -/
theorem save_audio_auto_name_check :
    save_audio (fun _ => true) 5 none = some (autoFilename 5)
    ∧ autoFilename 5 ≠ autoFilename 6 :=
  save_audio_auto_name (fun _ => true) 5 6 rfl (by decide)

/-- C7: for every voice listing and every user input that is non-numeric
or denotes an index outside the displayed range `1..len(voices)`
(including the input "0"), `select_voice` leaves the selected voice id
unchanged at its prior value, and no error reaches the caller (the
function still returns normally); only a numeric input within the
displayed range selects the corresponding voice. -/
theorem select_voice_frame (voices : List Voice) (input : String)
    (cur : String) :
    (¬ (pyIsDigit (pyStrip input) = true
          ∧ 1 ≤ pyInt (pyStrip input)
          ∧ pyInt (pyStrip input) ≤ voices.length)
        → select_voice voices input cur = cur)
    ∧ ∀ v, pyIsDigit (pyStrip input) = true
        → 1 ≤ pyInt (pyStrip input)
        → pyInt (pyStrip input) ≤ voices.length
        → voices.get? (pyInt (pyStrip input) - 1) = some v
        → select_voice voices input cur = v.voice_id := by
  simp only [select_voice]
  by_cases hemp : voices.isEmpty
  · rw [if_pos hemp]
    have hlen : voices.length = 0 := by
      cases voices with
      | nil => rfl
      | cons a t => exact absurd hemp (by simp)
    constructor
    · intro _; rfl
    · intro v _ hge hle _
      rw [hlen] at hle
      omega
  · rw [if_neg hemp]
    by_cases hd : pyIsDigit (pyStrip input) = true
    · have hne : pyStrip input ≠ "" := pyIsDigit_ne_empty hd
      rw [if_pos ⟨hne, hd⟩]
      by_cases hidx : (0 : Int) ≤ (pyInt (pyStrip input) : Int) - 1
          ∧ (pyInt (pyStrip input) : Int) - 1 < (voices.length : Int)
      · rw [if_pos hidx]
        have htn : ((pyInt (pyStrip input) : Int) - 1).toNat
            = pyInt (pyStrip input) - 1 := by omega
        constructor
        · intro hinv
          exact absurd ⟨hd, by omega, by omega⟩ hinv
        · intro v _ _ _ hget
          rw [htn, hget]
          rfl
      · rw [if_neg hidx]
        constructor
        · intro _; rfl
        · intro v _ hge hle _
          exact absurd ⟨by omega, by omega⟩ hidx
    · rw [if_neg (fun hand => hd hand.2)]
      constructor
      · intro _; rfl
      · intro v hd2 _ _ _
        exact absurd hd2 hd

/-- Closed-form check for `select_voice_frame`: with three voices listed,
input "0" keeps the prior voice and input "2" selects the second voice. -/
theorem select_voice_frame_check :
    select_voice [⟨"idA", "A"⟩, ⟨"idB", "B"⟩, ⟨"idC", "C"⟩] "0" "prior"
      = "prior"
    ∧ select_voice [⟨"idA", "A"⟩, ⟨"idB", "B"⟩, ⟨"idC", "C"⟩] "2" "prior"
      = "idB" :=
  ⟨(select_voice_frame [⟨"idA", "A"⟩, ⟨"idB", "B"⟩, ⟨"idC", "C"⟩] "0"
      "prior").1 (by decide),
   (select_voice_frame [⟨"idA", "A"⟩, ⟨"idB", "B"⟩, ⟨"idC", "C"⟩] "2"
      "prior").2 ⟨"idB", "B"⟩ (by decide) (by decide) (by decide) (by decide)⟩

/-- C8: whenever the fallback is invoked, the HTTP request is a POST to
`https://api.elevenlabs.io/v1/text-to-speech/{voice_id}` templated with
the session's voice id, with headers `Accept: audio/mpeg`,
`Content-Type: application/json` and `xi-api-key` set to the session's
API key, and a JSON body containing exactly the text, the fixed model id
`eleven_monolingual_v1` and the voice-settings record; a 200 response
yields the raw response body as the returned audio bytes. -/
theorem fallback_request_contract
    (env : GenEnv) (s : Session) (text : String) (vs : VoiceSettings)
    (e : String) (hp : env.primary (mkPrimaryRequest s text vs) = .exn e) :
    (generate_speech env s text vs).2.fallbackCalls
      = [{ method := "POST"
           url := "https://api.elevenlabs.io/v1/text-to-speech/"
               ++ s.voice_id
           headers :=
             [("Accept", "audio/mpeg"),
              ("Content-Type", "application/json"),
              ("xi-api-key", s.api_key)]
           body := { text := text
                     model_id := "eleven_monolingual_v1"
                     voice_settings := vs } }]
    ∧ ∀ r, env.post (mkFallbackRequest s text vs) = .ok r
        → r.status_code = 200
        → (generate_speech env s text vs).1 = some r.content := by
  constructor
  · simp only [generate_speech, hp]
    cases hf : env.post (mkFallbackRequest s text vs) with
    | ok r =>
        by_cases h200 : r.status_code = 200
        · simp [h200, mkFallbackRequest]
        · simp [h200, mkFallbackRequest]
    | exn m => simp [mkFallbackRequest]
  · intro r hr h200
    simp [generate_speech, hp, hr, h200]

/-- Closed-form check for `fallback_request_contract`. -/
theorem fallback_request_contract_check :
    (generate_speech envFail200 ⟨"KEY", "VID"⟩ "hello" vsDefault).2.fallbackCalls
      = [{ method := "POST"
           url := "https://api.elevenlabs.io/v1/text-to-speech/" ++ "VID"
           headers :=
             [("Accept", "audio/mpeg"),
              ("Content-Type", "application/json"),
              ("xi-api-key", "KEY")]
           body := { text := "hello"
                     model_id := "eleven_monolingual_v1"
                     voice_settings := vsDefault } }]
    ∧ (generate_speech envFail200 ⟨"KEY", "VID"⟩ "hello" vsDefault).1
      = some [9, 9] :=
  ⟨(fallback_request_contract envFail200 ⟨"KEY", "VID"⟩ "hello" vsDefault
      "boom" rfl).1,
   (fallback_request_contract envFail200 ⟨"KEY", "VID"⟩ "hello" vsDefault
      "boom" rfl).2 { status_code := 200, content := [9, 9], text := "" }
     rfl rfl⟩

/-- C9: if parsing any one of the three numeric prompts of
`adjust_voice_settings` raises a `ValueError`, the operation returns all
four default values `(0.5, 0.8, 0.0, True)`, discarding any valid values
entered at earlier prompts — the fallback to defaults is all-or-nothing. -/
theorem adjust_settings_all_or_nothing (env : AdjustEnv)
    (h : (pyStrip env.stabilityInput ≠ ""
            ∧ env.parseFloat (pyStrip env.stabilityInput) = none)
       ∨ (pyStrip env.similarityInput ≠ ""
            ∧ env.parseFloat (pyStrip env.similarityInput) = none)
       ∨ (pyStrip env.styleInput ≠ ""
            ∧ env.parseFloat (pyStrip env.styleInput) = none)) :
    adjust_voice_settings env = (1/2, 4/5, 0, true) := by
  simp only [adjust_voice_settings]
  rcases h with ⟨h1, h2⟩ | ⟨h1, h2⟩ | ⟨h1, h2⟩
  · rw [if_neg h1, h2]
  · cases hs : (if pyStrip env.stabilityInput = "" then some ((1 : Rat)/2)
        else env.parseFloat (pyStrip env.stabilityInput)) with
    | none => rfl
    | some st => rw [if_neg h1, h2]
  · cases hs : (if pyStrip env.stabilityInput = "" then some ((1 : Rat)/2)
        else env.parseFloat (pyStrip env.stabilityInput)) with
    | none => rfl
    | some st =>
        cases hsim : (if pyStrip env.similarityInput = ""
            then some ((4 : Rat)/5)
            else env.parseFloat (pyStrip env.similarityInput)) with
        | none => rfl
        | some sim => rw [if_neg h1, h2]

/-- Concrete `adjust_voice_settings` inputs: a valid stability "0.3", an
invalid similarity "x", defaults elsewhere. -/
def adjustEnvMixed : AdjustEnv :=
  { stabilityInput := "0.3", similarityInput := "x", styleInput := "",
    boostInput := "y",
    parseFloat := fun s => if s = "0.3" then some (3/10) else none }

/-- Closed-form check for `adjust_settings_all_or_nothing`: the valid
stability 0.3 entered first is discarded when the similarity prompt
fails. -/
theorem adjust_settings_all_or_nothing_check :
    adjust_voice_settings adjustEnvMixed = (1/2, 4/5, 0, true) :=
  adjust_settings_all_or_nothing adjustEnvMixed
    (Or.inr (Or.inl ⟨by decide, by simp [adjustEnvMixed, pyStrip, stripChars,
      pyIsSpace]⟩))

/-- C10: text returned by a successful `extract_text_from_pdf` is stripped
and non-empty, and pages whose extracted text is empty or whitespace-only
contribute nothing to the accumulated text — not even a page marker — just
like pages whose extraction raised. -/
theorem extract_text_stripped_nonempty (env : PdfEnv) (t : String)
    (h : extract_text_from_pdf env = .ok t) :
    pyStrip t = t ∧ t ≠ ""
    ∧ (∀ n w, pyStrip w = "" → pageContribution n (.ok w) = "")
    ∧ ∀ n e, pageContribution n (.exn e) = "" := by
  unfold extract_text_from_pdf at h
  split at h
  · cases h
  · split at h
    · cases h
    · next pages =>
        dsimp only at h
        split at h
        · cases h
        · next hstrip =>
            cases h
            refine ⟨pyStrip_idem _, hstrip, ?_, ?_⟩
            · intro n w hw
              simp [pageContribution, hw]
            · intro n e
              rfl

/-- Concrete one-page PDF environment. -/
def pdfEnvHello : PdfEnv :=
  { pdfAvailable := true, openFile := .ok [.ok "hello"] }

/-- Closed-form check for `extract_text_stripped_nonempty`. -/
theorem extract_text_stripped_nonempty_check :
    pyStrip "--- Page 1 ---\nhello" = "--- Page 1 ---\nhello"
    ∧ "--- Page 1 ---\nhello" ≠ ""
    ∧ pageContribution 3 (.ok " \n ") = ""
    ∧ pageContribution 7 (.exn "err") = "" :=
  ⟨(extract_text_stripped_nonempty pdfEnvHello "--- Page 1 ---\nhello"
      (by decide)).1,
   (extract_text_stripped_nonempty pdfEnvHello "--- Page 1 ---\nhello"
      (by decide)).2.1,
   (extract_text_stripped_nonempty pdfEnvHello "--- Page 1 ---\nhello"
      (by decide)).2.2.1 3 " \n " (by decide),
   (extract_text_stripped_nonempty pdfEnvHello "--- Page 1 ---\nhello"
      (by decide)).2.2.2 7 "err"⟩

end AudioPages
